import Mathlib

/-!
Shallow embedding of the vote-app backend (Express + Mongoose voting service).
The data model mirrors the Mongoose schemas in `src/models`, the model-layer
operations mirror the static methods of the `Vote`, `VotingSession` and `Poll`
classes, and the request handlers mirror the controllers in `src/controllers`.
Persistent state is threaded explicitly as lists of records; machine time is an
explicit `Int` parameter standing for `Date.now()` at the moment of the call.
-/

namespace VoteApp

/-- JavaScript `String.prototype.trim`: removes whitespace from both ends of
the string. (Written over the character list so that it reduces inside the
kernel; Lean's own `String.trim` is defined by well-founded recursion.) -/
def jsTrim (s : String) : String :=
  String.mk (((s.data.dropWhile Char.isWhitespace).reverse.dropWhile Char.isWhitespace).reverse)

/-- JavaScript `String.prototype.split(sep)` for a one-character separator,
over character lists: `"a b".split(' ') = ["a", "b"]`, `"a ".split(' ') =
["a", ""]`, `"".split(' ') = [""]`. -/
def splitOnChar (sep : Char) : List Char → List (List Char)
  | [] => [[]]
  | c :: rest =>
    let r := splitOnChar sep rest
    if c = sep then [] :: r
    else
      match r with
      | [] => [[c]]
      | h :: t => (c :: h) :: t

/-- Lexicographic comparison of character lists by code point, the order
implemented by JavaScript's default `Array.prototype.sort` on strings. -/
def charListLe : List Char → List Char → Bool
  | [], _ => true
  | _ :: _, [] => false
  | a :: as, b :: bs => if a = b then charListLe as bs else decide (a < b)

/-- The string order used for the sorted distinct-candidate lists. -/
def jsStrLe (a b : String) : Prop := charListLe a.data b.data = true

instance : DecidableRel jsStrLe :=
  fun a b => inferInstanceAs (Decidable (charListLe a.data b.data = true))

theorem charListLe_total : ∀ (a b : List Char),
    charListLe a b = true ∨ charListLe b a = true
  | [], _ => Or.inl rfl
  | _ :: _, [] => Or.inr rfl
  | a :: as, b :: bs => by
    by_cases hab : a = b
    · subst hab
      simpa [charListLe] using charListLe_total as bs
    · rcases lt_or_gt_of_ne hab with h | h
      · exact Or.inl (by simp [charListLe, hab, h])
      · refine Or.inr ?_
        have hba : b ≠ a := fun hba => hab hba.symm
        simp [charListLe, hba, h]

theorem charListLe_trans : ∀ (a b c : List Char),
    charListLe a b = true → charListLe b c = true → charListLe a c = true
  | [], _, _, _, _ => rfl
  | _ :: _, [], _, hab, _ => by simp [charListLe] at hab
  | _ :: _, _ :: _, [], _, hbc => by simp [charListLe] at hbc
  | a :: as, b :: bs, c :: cs, hab, hbc => by
    simp only [charListLe] at hab hbc ⊢
    by_cases h1 : a = b
    · subst h1
      by_cases h2 : a = c
      · subst h2
        simp only [if_pos rfl] at hab hbc ⊢
        exact charListLe_trans as bs cs hab hbc
      · simpa [h2] using (by simpa [h2] using hbc)
    · by_cases h2 : b = c
      · subst h2
        simpa [h1] using (by simpa [h1] using hab)
      · have hb : a < b := by simpa [h1] using hab
        have hc : b < c := by simpa [h2] using hbc
        have hac : a < c := lt_trans hb hc
        simp [ne_of_lt hac, hac]

instance : IsTotal String jsStrLe :=
  ⟨fun a b => charListLe_total a.data b.data⟩

instance : IsTrans String jsStrLe :=
  ⟨fun a b c hab hbc => charListLe_trans a.data b.data c.data hab hbc⟩

abbrev UserId := Nat
abbrev SessionId := Nat
abbrev CandidateId := Nat
abbrev PollId := Nat

inductive Role where
  | user
  | admin
deriving DecidableEq, Repr

/-- A user record (`src/models/User` is referenced by the controllers; the
fields used by the embedded handlers are the id and the role). -/
structure User where
  id : UserId
  username : String
  email : String
  role : Role
deriving DecidableEq, Repr

/-- Status enum of `votingSessionSchema` : `['draft', 'active', 'closed']`. -/
inductive SessionStatus where
  | draft
  | active
  | closed
deriving DecidableEq, Repr

/-- Status enum of `pollSchema` : `['draft', 'active', 'ended', 'cancelled']`. -/
inductive PollStatus where
  | draft
  | active
  | ended
  | cancelled
deriving DecidableEq, Repr

/-- An embedded candidate subdocument (name, description, generated id). -/
structure Candidate where
  id : CandidateId
  name : String
  description : String
deriving DecidableEq, Repr

/-- `votingSessionSchema` from the source: title, description, candidates,
assigned users, status, optional start/end dates, configuration flags. -/
structure VotingSession where
  id : SessionId
  title : String
  description : String
  candidates : List Candidate
  assignedUsers : List UserId
  status : SessionStatus
  startDate : Option Int
  endDate : Option Int
  allowNewCandidates : Bool
  multipleChoice : Bool
  maxChoices : Nat
  createdBy : UserId
deriving DecidableEq, Repr

/-- `pollSchema` from the source: start/end dates are required, candidates and
assigned users embedded, plus the configuration flags used by the handlers. -/
structure Poll where
  id : PollId
  title : String
  candidates : List Candidate
  assignedUsers : List UserId
  createdBy : UserId
  startDate : Int
  endDate : Int
  status : PollStatus
  allowNewCandidates : Bool
  isAnonymous : Bool
deriving DecidableEq, Repr

/-- `voteSchema` from the source: a `votingSessionId` of `none` is a legacy
global-scope ballot (the schema field is absent, `$exists: false`). -/
structure Vote where
  id : Nat
  userId : UserId
  votingSessionId : Option SessionId
  candidateId : Option CandidateId
  candidateName : String
  timestamp : Int
  isCustomCandidate : Bool
deriving DecidableEq, Repr

/-- The ballot collection plus the id supply used when a new document is saved. -/
structure VoteDB where
  votes : List Vote
  nextId : Nat
deriving DecidableEq, Repr

/-- The `candidateData` object assembled by the vote controllers. -/
structure CandidateData where
  candidateId : Option CandidateId
  candidateName : String
  isCustomCandidate : Bool
deriving DecidableEq, Repr

/-- `VotingSession.findById` : lookup of a session document by id. -/
def VotingSession.findById (sessions : List VotingSession) (id : SessionId) :
    Option VotingSession :=
  sessions.find? (fun s => s.id == id)

/-- `VotingSession.isUserAssignedToSession` from the source: re-fetches the
session and tests membership of the user id in `assignedUsers`. -/
def VotingSession.isUserAssignedToSession (sessions : List VotingSession)
    (sessionId : SessionId) (userId : UserId) : Bool :=
  match VotingSession.findById sessions sessionId with
  | none => false
  | some session => session.assignedUsers.any (fun assignedUserId => assignedUserId == userId)

/-- `Vote.castVoteInSession` (model layer): pre-checks `findOne` on the
(user, session) pair, throws "User has already voted in this voting session"
when a ballot exists, otherwise saves a new ballot with the trimmed name. -/
def Vote.castVoteInSession (db : VoteDB) (userId : UserId) (votingSessionId : SessionId)
    (candidateData : CandidateData) (now : Int) : Except String (Vote × VoteDB) :=
  match db.votes.find? (fun v => v.userId == userId && v.votingSessionId == some votingSessionId) with
  | some _ => .error "User has already voted in this voting session"
  | none =>
    let vote : Vote :=
      { id := db.nextId
        userId := userId
        votingSessionId := some votingSessionId
        candidateId := candidateData.candidateId
        candidateName := jsTrim candidateData.candidateName
        timestamp := now
        isCustomCandidate := candidateData.isCustomCandidate }
    .ok (vote, { votes := db.votes ++ [vote], nextId := db.nextId + 1 })

/-- `Vote.createVote` (legacy global scope): `findOne` on the user restricted to
documents without a `votingSessionId`; throws "User has already voted" when such
a ballot with a truthy (non-empty) candidate name exists; otherwise it saves a
document built from `userId` and the trimmed name only. The schema declares
`votingSessionId` required, so that save always fails Mongoose validation: the
thrown validation error (whose message is not the Conflict message) propagates
to the caller and no ballot is created. -/
def Vote.createVote (db : VoteDB) (userId : UserId) (candidateName : String)
    (now : Int) : Except String (Vote × VoteDB) :=
  let existingVote := db.votes.find? (fun v => v.userId == userId && v.votingSessionId == none)
  if (match existingVote with
      | some v => v.candidateName != ""
      | none => false) then
    .error "User has already voted"
  else
    .error "Vote validation failed: votingSessionId: Path `votingSessionId` is required."

/-- The ballots of one session (`$match` stage of the aggregation). -/
def sessionVotes (votes : List Vote) (votingSessionId : SessionId) : List Vote :=
  votes.filter (fun v => v.votingSessionId == some votingSessionId)

/-- One `$group` bucket of the session aggregation: vote count and
custom-candidate count for one candidate name. -/
structure ResultEntry where
  candidateName : String
  voteCount : Nat
  customCandidateCount : Nat
deriving DecidableEq, Repr

/-- The payload assembled by `Vote.getSessionResults`. -/
structure SessionResults where
  results : List ResultEntry
  totalVotes : Nat
  totalCandidates : Nat
  candidates : List String
deriving DecidableEq, Repr

/-- The `$group` bucket for one candidate name over the matched ballots. -/
def resultEntryFor (matched : List Vote) (name : String) : ResultEntry :=
  { candidateName := name
    voteCount := (matched.filter (fun v => v.candidateName == name)).length
    customCandidateCount :=
      (matched.filter (fun v => v.candidateName == name && v.isCustomCandidate)).length }

/-- The `$sort: voteCount: -1` order: entries with larger counts first. -/
def byVoteCountDesc (a b : ResultEntry) : Prop := b.voteCount ≤ a.voteCount

instance : DecidableRel byVoteCountDesc :=
  fun a b => inferInstanceAs (Decidable (b.voteCount ≤ a.voteCount))

instance : IsTotal ResultEntry byVoteCountDesc :=
  ⟨fun a b => Nat.le_total b.voteCount a.voteCount⟩

instance : IsTrans ResultEntry byVoteCountDesc :=
  ⟨fun _ _ _ hab hbc => Nat.le_trans hbc hab⟩

/-- `Vote.getSessionResults`: group the session's ballots by candidate name
with per-name vote and custom counts, sort by vote count descending, and return
them with the total ballot count and the distinct candidate names sorted. -/
def Vote.getSessionResults (votes : List Vote) (votingSessionId : SessionId) :
    SessionResults :=
  let matched := sessionVotes votes votingSessionId
  let names := (matched.map (fun v => v.candidateName)).dedup
  { results := List.insertionSort byVoteCountDesc (names.map (resultEntryFor matched))
    totalVotes := matched.length
    totalCandidates := names.length
    candidates := List.insertionSort jsStrLe names }

/-- The `timestamp: -1` sort used by `Vote.getSessionVotes`. -/
def byTimestampDesc (a b : Vote) : Prop := b.timestamp ≤ a.timestamp

instance : DecidableRel byTimestampDesc :=
  fun a b => inferInstanceAs (Decidable (b.timestamp ≤ a.timestamp))

/-- `Vote.getSessionVotes`: the session's ballots, newest first. -/
def Vote.getSessionVotes (votes : List Vote) (votingSessionId : SessionId) : List Vote :=
  List.insertionSort byTimestampDesc (sessionVotes votes votingSessionId)

/-- `Vote.deleteVotesByUserId`: drops every ballot of the user. -/
def Vote.deleteVotesByUserId (db : VoteDB) (userId : UserId) : VoteDB :=
  { db with votes := db.votes.filter (fun v => !(v.userId == userId)) }

/-- A ballot in the legacy poll scope. The `Vote` schema has no `pollId`
field, yet several model methods query one; the poll-scoped ballots are kept
as their own collection here. The embedded `castVoteInPoll` handler threads
this collection through unchanged, since the source handler errors before any
write could happen. -/
structure PollVote where
  id : Nat
  userId : UserId
  pollId : PollId
  candidateId : Option CandidateId
  candidateName : String
  timestamp : Int
  isCustomCandidate : Bool
deriving DecidableEq, Repr

structure PollVoteDB where
  votes : List PollVote
  nextId : Nat
deriving DecidableEq, Repr

/-- An HTTP handler outcome: a success payload or an error message, each with
its status code. -/
inductive Response (α : Type) where
  | ok (status : Nat) (payload : α)
  | err (status : Nat) (message : String)
deriving DecidableEq, Repr

def Response.status {α : Type} : Response α → Nat
  | .ok s _ => s
  | .err s _ => s

/-- The request body of the session-scoped cast endpoint: absent JSON fields
are `none`; `isCustomCandidate` destructures with default `false`. -/
structure CastRequest where
  votingSessionId : Option SessionId
  candidateName : Option String
  candidateId : Option CandidateId
  isCustomCandidate : Bool
deriving DecidableEq, Repr

/-- The `castVoteInSession` controller, check for check in source order:
session-id presence, candidate-name presence/trim, session existence,
assignment, active status, start bound (`now < startDate`), end bound
(`now > endDate`), custom-candidate permission, candidate-id existence, then
the model-level cast whose Conflict message maps to 409. -/
def voteController.castVoteInSession (sessions : List VotingSession) (db : VoteDB)
    (reqUser : User) (req : CastRequest) (now : Int) : Response Vote × VoteDB :=
  match req.votingSessionId with
  | none => (.err 400 "Voting session ID is required", db)
  | some votingSessionId =>
    match req.candidateName with
    | none => (.err 400 "Candidate name is required", db)
    | some candidateName =>
      if jsTrim candidateName == "" then (.err 400 "Candidate name is required", db)
      else
        match VotingSession.findById sessions votingSessionId with
        | none => (.err 404 "Voting session not found", db)
        | some votingSession =>
          if !(VotingSession.isUserAssignedToSession sessions votingSessionId reqUser.id) then
            (.err 403 "You are not assigned to this voting session", db)
          else if !(votingSession.status == .active) then
            (.err 400 "Voting session is not active", db)
          else if (match votingSession.startDate with
                   | some s => decide (now < s)
                   | none => false) then
            (.err 400 "Voting session has not started yet", db)
          else if (match votingSession.endDate with
                   | some e => decide (now > e)
                   | none => false) then
            (.err 400 "Voting session has ended", db)
          else if req.isCustomCandidate && !votingSession.allowNewCandidates then
            (.err 400 "Adding new candidates is not allowed for this voting session", db)
          else if !req.isCustomCandidate &&
              (match req.candidateId with
               | some candidateId =>
                 !(votingSession.candidates.any (fun c => c.id == candidateId))
               | none => false) then
            (.err 400 "Candidate not found in this voting session", db)
          else
            match Vote.castVoteInSession db reqUser.id votingSessionId
                { candidateId := req.candidateId
                  candidateName := jsTrim candidateName
                  isCustomCandidate := req.isCustomCandidate } now with
            | .error msg =>
              if msg == "User has already voted in this voting session" then
                (.err 409 msg, db)
              else (.err 500 "Server error during vote casting", db)
            | .ok (vote, db2) => (.ok 201 vote, db2)

/-- The legacy `castVote` controller: candidate-name presence/trim check, then
`Vote.createVote` on the trimmed name; its Conflict message maps to 409. -/
def voteController.castVote (db : VoteDB) (reqUser : User)
    (candidateName : Option String) (now : Int) : Response Vote × VoteDB :=
  match candidateName with
  | none => (.err 400 "Candidate name is required", db)
  | some nm =>
    if jsTrim nm == "" then (.err 400 "Candidate name is required", db)
    else
      match Vote.createVote db reqUser.id (jsTrim nm) now with
      | .error msg =>
        if msg == "User has already voted" then (.err 409 msg, db)
        else (.err 500 "Server error during vote casting", db)
      | .ok (vote, db2) => (.ok 201 vote, db2)

/-- The request body of the poll-scoped cast endpoint. -/
structure PollCastRequest where
  candidateName : Option String
  candidateId : Option CandidateId
  isCustomCandidate : Bool
deriving DecidableEq, Repr

/-- The `castVoteInPoll` controller. After the candidate-name presence/trim
check the source evaluates `Poll.findById(pollId)`, but the module only ever
requires `Vote` and `VotingSession` - the identifier `Poll` is declared
nowhere in voteController.js - so in JavaScript the access throws a
ReferenceError; the handler's catch block maps it (its message is not the
poll Conflict message) to 500 "Server error casting vote". Every request past
the name check therefore takes the 500 branch: the poll store (passed here as
`polls`) is never read, the activity and candidate checks are unreachable,
and no poll ballot is ever written. -/
def voteController.castVoteInPoll (polls : List Poll) (db : PollVoteDB) (reqUser : User)
    (pollId : PollId) (req : PollCastRequest) (now : Int) : Response PollVote × PollVoteDB :=
  match req.candidateName with
  | none => (.err 400 "Candidate name is required", db)
  | some candidateName =>
    if jsTrim candidateName == "" then (.err 400 "Candidate name is required", db)
    else (.err 500 "Server error casting vote", db)

/-- The `getSessionResults` controller: 404 for a missing session, 403 for a
non-admin caller who is not assigned, otherwise the aggregated results. -/
def voteController.getSessionResults (sessions : List VotingSession) (db : VoteDB)
    (reqUser : User) (votingSessionId : SessionId) :
    Response (VotingSession × SessionResults) :=
  match VotingSession.findById sessions votingSessionId with
  | none => .err 404 "Voting session not found"
  | some votingSession =>
    if reqUser.role != .admin &&
        !(VotingSession.isUserAssignedToSession sessions votingSessionId reqUser.id) then
      .err 403 "You are not assigned to this voting session"
    else
      .ok 200 (votingSession, Vote.getSessionResults db.votes votingSessionId)

/-- One element of the `votes` array in the get-session-by-id payload: the
handler maps each stored ballot to a view that carries the voter's identity in
its `user` field. -/
structure SessionVoteView where
  id : Nat
  candidateName : String
  user : UserId
  timestamp : Int
  isCustomCandidate : Bool
deriving DecidableEq, Repr

/-- The payload of `getVotingSessionById`: the session document, its full
aggregated results, and the individual ballots with voter identities. -/
structure SessionDetail where
  votingSession : VotingSession
  results : SessionResults
  votes : List SessionVoteView
deriving DecidableEq, Repr

/-- The `getVotingSessionById` controller: 404 for a missing session and
otherwise the full detail payload. The authenticated caller is never consulted
- the request's user goes unused in the source handler. -/
def votingSessionController.getVotingSessionById (sessions : List VotingSession)
    (db : VoteDB) (reqUser : User) (id : SessionId) : Response SessionDetail :=
  match VotingSession.findById sessions id with
  | none => .err 404 "Voting session not found"
  | some votingSession =>
    .ok 200
      { votingSession := votingSession
        results := Vote.getSessionResults db.votes id
        votes := (Vote.getSessionVotes db.votes id).map (fun v =>
          { id := v.id
            candidateName := v.candidateName
            user := v.userId
            timestamp := v.timestamp
            isCustomCandidate := v.isCustomCandidate }) }

/-- The `deleteUser` handler of `userController.js`. After the self-deletion
guard the source evaluates `User.findById(userId)`, but `userId` is declared
nowhere in that function (the route parameter was destructured as `id`), so in
JavaScript the access throws a ReferenceError; the handler's catch block maps
the exception to the 500 response. Hence every request whose target differs
from the caller takes the 500 branch without touching users or ballots. -/
def userController.deleteUser (users : List User) (db : VoteDB) (reqUser : User)
    (id : UserId) : Response Unit × List User × VoteDB :=
  if id == reqUser.id then
    (.err 403 "Cannot delete your own account", users, db)
  else
    (.err 500 "Server error deleting user", users, db)

/-- The outcome of `jwt.verify` for a given token string: `some` decoded user
id for a token that verifies, `none` for an invalid or expired one. -/
structure AuthEnv where
  verify : String → Option UserId

/-- Outcome of the authentication middleware: the resolved user handed to the
next handler, or the error response it wrote. -/
inductive AuthResult where
  | ok (user : User)
  | err (status : Nat) (message : String)
deriving DecidableEq, Repr

/-- `authHeader && authHeader.split(' ')[1]`: the token is the second
space-separated word of the header; an absent header, a header without a second
word, and an empty (falsy) second word all leave no token. -/
def extractBearerToken (authHeader : Option String) : Option String :=
  match authHeader with
  | none => none
  | some h =>
    match ((splitOnChar ' ' h.data).map String.mk).get? 1 with
    | none => none
    | some t => if t == "" then none else some t

/-- The `authenticateToken` middleware: 401 without a token, 403 when
`jwt.verify` rejects it, 404 when the decoded user id matches no user, else the
full user record is attached to the request. -/
def authenticateToken (env : AuthEnv) (users : List User) (authHeader : Option String) :
    AuthResult :=
  match extractBearerToken authHeader with
  | none => .err 401 "Access token required"
  | some token =>
    match env.verify token with
    | none => .err 403 "Invalid or expired token"
    | some decodedId =>
      match users.find? (fun u => u.id == decodedId) with
      | none => .err 404 "User not found"
      | some fullUser => .ok fullUser

/-- The HTTP status an authentication outcome writes (a successful resolution
falls through to the handler, which replies 200 here). -/
def AuthResult.statusCode : AuthResult → Nat
  | .ok _ => 200
  | .err s _ => s

/-! ### Concrete fixtures used by counterexamples and witnesses -/

def adminUser : User :=
  { id := 1, username := "admin", email := "admin@voting-app.com", role := .admin }

def aliceUser : User :=
  { id := 2, username := "alice", email := "alice@example.com", role := .user }

def bobUser : User :=
  { id := 3, username := "bob", email := "bob@example.com", role := .user }

def emptyVoteDB : VoteDB := { votes := [], nextId := 1 }

/-- An active session whose time window is [0, 100], with user 2 assigned. -/
def boardSession : VotingSession :=
  { id := 7
    title := "board"
    description := ""
    candidates := [{ id := 1, name := "Alice", description := "" }]
    assignedUsers := [2]
    status := .active
    startDate := some 0
    endDate := some 100
    allowNewCandidates := true
    multipleChoice := false
    maxChoices := 1
    createdBy := 1 }

/-- The same session still in draft status. -/
def draftSession : VotingSession :=
  { boardSession with id := 8, status := .draft }

/-- An active session that forbids new candidates, whose only predefined
candidate is "X", with user 2 assigned and no time window. -/
def lockedSession : VotingSession :=
  { id := 9
    title := "locked"
    description := ""
    candidates := [{ id := 1, name := "X", description := "" }]
    assignedUsers := [2]
    status := .active
    startDate := none
    endDate := none
    allowNewCandidates := false
    multipleChoice := false
    maxChoices := 1
    createdBy := 1 }

/-- An active poll whose time window is [0, 100], with user 2 assigned. -/
def boardPoll : Poll :=
  { id := 4
    title := "poll"
    candidates := [{ id := 1, name := "Alice", description := "" }]
    assignedUsers := [2]
    createdBy := 1
    startDate := 0
    endDate := 100
    status := .active
    allowNewCandidates := true
    isAnonymous := false }

/-- A legacy global ballot of user 2 (no session id). -/
def aliceGlobalVote : Vote :=
  { id := 1
    userId := 2
    votingSessionId := none
    candidateId := none
    candidateName := "John Doe"
    timestamp := 0
    isCustomCandidate := false }

def seededVoteDB : VoteDB := { votes := [aliceGlobalVote], nextId := 2 }

/-- Ballots of session 7 with candidate-name multiset arrangement A:2, B:1. -/
def exampleVotes : List Vote :=
  [ { id := 1, userId := 2, votingSessionId := some 7, candidateId := none,
      candidateName := "A", timestamp := 0, isCustomCandidate := false }
  , { id := 2, userId := 3, votingSessionId := some 7, candidateId := none,
      candidateName := "A", timestamp := 1, isCustomCandidate := false }
  , { id := 3, userId := 4, votingSessionId := some 7, candidateId := none,
      candidateName := "B", timestamp := 2, isCustomCandidate := false } ]

/-- A token environment where exactly the token "good" verifies, decoding to
user id 5. -/
def stubAuthEnv : AuthEnv := { verify := fun t => if t == "good" then some 5 else none }

/-! ### Claims -/

/-- C1, counterexample: a session-scoped cast with a whitespace-only candidate
name against a session id that matches no session fails with the InvalidInput
response 400 "Candidate name is required", not with 404 NotFound: the
controller checks the candidate name before it looks the session up, so the
claimed validation order (session existence first, name at step 7) is not the
code's order. -/
theorem castVoteInSession_empty_name_beats_missing_session :
    (voteController.castVoteInSession [] emptyVoteDB aliceUser
      { votingSessionId := some 7, candidateName := some "   ", candidateId := none,
        isCustomCandidate := false } 0).fst
      = .err 400 "Candidate name is required" ∧
    ((voteController.castVoteInSession [] emptyVoteDB aliceUser
      { votingSessionId := some 7, candidateName := some "   ", candidateId := none,
        isCustomCandidate := false } 0).fst).status ≠ 404 :=
  ⟨rfl, by decide⟩

/-- C3, counterexample: in the session variant the end bound is inclusive: a
fully valid cast at `now` equal to the session's end timestamp succeeds with
201 instead of failing InvalidState "has ended" (the code only rejects
`now > endDate`). -/
theorem castVoteInSession_at_end_timestamp_succeeds :
    ((voteController.castVoteInSession [boardSession] emptyVoteDB aliceUser
      { votingSessionId := some 7, candidateName := some "Alice", candidateId := none,
        isCustomCandidate := false } 100).fst).status = 201 ∧
    (voteController.castVoteInSession [boardSession] emptyVoteDB aliceUser
      { votingSessionId := some 7, candidateName := some "Alice", candidateId := none,
        isCustomCandidate := false } 100).fst
      ≠ .err 400 "Voting session has ended" :=
  ⟨rfl, by decide⟩

/-- C4, counterexample: a cast into a draft session with a whitespace-only
candidate name fails with the InvalidInput response "Candidate name is
required", not with the InvalidState response "Voting session is not active" -
the empty-name check runs before the status check, so the claim's "regardless
of candidate validity" fails for empty names. -/
theorem castVoteInSession_draft_empty_name_not_invalid_state :
    (voteController.castVoteInSession [draftSession] emptyVoteDB aliceUser
      { votingSessionId := some 8, candidateName := some "   ", candidateId := none,
        isCustomCandidate := false } 0).fst
      = .err 400 "Candidate name is required" ∧
    (voteController.castVoteInSession [draftSession] emptyVoteDB aliceUser
      { votingSessionId := some 8, candidateName := some "   ", candidateId := none,
        isCustomCandidate := false } 0).fst
      ≠ .err 400 "Voting session is not active" :=
  ⟨rfl, by decide⟩

/-- C8, counterexample: with a well-formed bearer header whose token verifies
to user id 5 while no such user exists, the middleware answers 404 "User not
found" - a NotFound response, not a 401/403 Unauthorized-class one. -/
theorem authenticateToken_deleted_user_404 :
    authenticateToken stubAuthEnv [] (some "Bearer good") = .err 404 "User not found" ∧
    (authenticateToken stubAuthEnv [] (some "Bearer good")).statusCode = 404 ∧
    (404 : Nat) ≠ 401 ∧ (404 : Nat) ≠ 403 :=
  ⟨rfl, rfl, by decide, by decide⟩

/-- C6: at the failing input - the admin (id 1) deleting the existing regular
user 2, who has a ballot - the `deleteUser` handler returns 500 "Server error
deleting user" and deletes neither the user nor any ballot, because the source
dereferences the undeclared identifier `userId` and the resulting
ReferenceError is caught as a server error; the repository's own test suite
expects 200 with the user and their votes removed, and 403 for an admin
target. Only the self-deletion guard behaves as specified. -/
theorem deleteUser_nonself_target_always_500 :
    userController.deleteUser [adminUser, aliceUser] seededVoteDB adminUser 2
      = (.err 500 "Server error deleting user", [adminUser, aliceUser], seededVoteDB) ∧
    userController.deleteUser [adminUser, aliceUser] seededVoteDB adminUser 1
      = (.err 403 "Cannot delete your own account", [adminUser, aliceUser], seededVoteDB) :=
  ⟨rfl, rfl⟩

/-- C1 (amended): the validation order of the session cast begins with request
shape, not session existence: with the session id present, a missing or
whitespace-only candidate name fails 400 "Candidate name is required" whether
or not the session exists, and only with a non-empty trimmed name does the
session lookup run, a missing session then failing 404 "Voting session not
found"; hence an empty candidate name against a nonexistent session fails
InvalidInput, not NotFound. -/
theorem castVoteInSession_name_checked_before_lookup (sessions : List VotingSession)
    (db : VoteDB) (reqUser : User) (req : CastRequest) (sid : SessionId) (now : Int)
    (hsid : req.votingSessionId = some sid) :
    (req.candidateName = none →
      (voteController.castVoteInSession sessions db reqUser req now).fst
        = .err 400 "Candidate name is required") ∧
    (∀ nm, req.candidateName = some nm → jsTrim nm = "" →
      (voteController.castVoteInSession sessions db reqUser req now).fst
        = .err 400 "Candidate name is required") ∧
    (∀ nm, req.candidateName = some nm → jsTrim nm ≠ "" →
      VotingSession.findById sessions sid = none →
      (voteController.castVoteInSession sessions db reqUser req now).fst
        = .err 404 "Voting session not found") := by
  refine ⟨fun h => ?_, fun nm h htrim => ?_, fun nm h htrim hfind => ?_⟩
  · simp [voteController.castVoteInSession, hsid, h]
  · simp [voteController.castVoteInSession, hsid, h, htrim]
  · simp [voteController.castVoteInSession, hsid, h, htrim, hfind]

/-- Witness for the C1 theorem at a concrete input: session id 7 matches no
session and the candidate name "x" is non-empty, so the cast fails 404. -/
theorem castVoteInSession_name_checked_before_lookup_witness :
    (voteController.castVoteInSession [] emptyVoteDB aliceUser
      { votingSessionId := some 7, candidateName := some "x", candidateId := none,
        isCustomCandidate := false } 0).fst
      = .err 404 "Voting session not found" :=
  (castVoteInSession_name_checked_before_lookup [] emptyVoteDB aliceUser
      { votingSessionId := some 7, candidateName := some "x", candidateId := none,
        isCustomCandidate := false } 7 0 rfl).2.2 "x" rfl (by decide) rfl

/-- C4 (amended): a session-scoped cast with the session id supplied, a
non-empty trimmed candidate name, and an assigned caller, aimed at a session
whose status is not active (draft or closed), fails 400 "Voting session is not
active" - regardless of the candidate id, the custom flag, the candidate list,
the permission flags, or the time window. A whitespace-only candidate name
instead fails the earlier InvalidInput check (see the counterexample). -/
theorem castVoteInSession_inactive_always_invalid_state (sessions : List VotingSession)
    (db : VoteDB) (reqUser : User) (req : CastRequest) (sid : SessionId)
    (sess : VotingSession) (nm : String) (now : Int)
    (hsid : req.votingSessionId = some sid)
    (hnm : req.candidateName = some nm)
    (htrim : jsTrim nm ≠ "")
    (hfind : VotingSession.findById sessions sid = some sess)
    (hassigned : VotingSession.isUserAssignedToSession sessions sid reqUser.id = true)
    (hstatus : sess.status ≠ .active) :
    (voteController.castVoteInSession sessions db reqUser req now).fst
      = .err 400 "Voting session is not active" := by
  have hb : (sess.status == SessionStatus.active) = false := beq_eq_false_iff_ne.mpr hstatus
  simp [voteController.castVoteInSession, hsid, hnm, htrim, hfind, hassigned, hb]

/-- Witness for the C4 theorem at a concrete input: the assigned user 2 casts
"Alice" into the draft session 8 and receives the InvalidState response. -/
theorem castVoteInSession_inactive_always_invalid_state_witness :
    (voteController.castVoteInSession [draftSession] emptyVoteDB aliceUser
      { votingSessionId := some 8, candidateName := some "Alice", candidateId := none,
        isCustomCandidate := false } 0).fst
      = .err 400 "Voting session is not active" :=
  castVoteInSession_inactive_always_invalid_state [draftSession] emptyVoteDB aliceUser
    { votingSessionId := some 8, candidateName := some "Alice", candidateId := none,
      isCustomCandidate := false } 8 draftSession "Alice" 0
    rfl rfl (by decide) rfl (by decide) (by decide)

/-- C8 (amended): the middleware's outcomes are: no extractable bearer token
gives 401 "Access token required"; a token the verifier rejects gives 403
"Invalid or expired token"; a token that verifies to a user id matching no
stored user gives 404 "User not found" (a NotFound response, not an
Unauthorized-class one); and a resolvable user is attached to the request. -/
theorem authenticateToken_outcome_map (env : AuthEnv) (users : List User)
    (authHeader : Option String) :
    (extractBearerToken authHeader = none →
       authenticateToken env users authHeader = .err 401 "Access token required") ∧
    (∀ t, extractBearerToken authHeader = some t → env.verify t = none →
       authenticateToken env users authHeader = .err 403 "Invalid or expired token") ∧
    (∀ t uid, extractBearerToken authHeader = some t → env.verify t = some uid →
       users.find? (fun u => u.id == uid) = none →
       authenticateToken env users authHeader = .err 404 "User not found") ∧
    (∀ t uid u, extractBearerToken authHeader = some t → env.verify t = some uid →
       users.find? (fun w => w.id == uid) = some u →
       authenticateToken env users authHeader = .ok u) := by
  refine ⟨fun h => ?_, fun t h hv => ?_, fun t uid h hv hf => ?_, fun t uid u h hv hf => ?_⟩
  · simp [authenticateToken, h]
  · simp [authenticateToken, h, hv]
  · simp [authenticateToken, h, hv, hf]
  · simp [authenticateToken, h, hv, hf]

/-- Witness for the C8 theorem at concrete inputs: an absent header yields
401, and an unverifiable token yields 403. -/
theorem authenticateToken_outcome_map_witness :
    authenticateToken stubAuthEnv [adminUser] none = .err 401 "Access token required" ∧
    authenticateToken stubAuthEnv [adminUser] (some "Bearer bad")
      = .err 403 "Invalid or expired token" :=
  ⟨(authenticateToken_outcome_map stubAuthEnv [adminUser] none).1 rfl,
   (authenticateToken_outcome_map stubAuthEnv [adminUser] (some "Bearer bad")).2.1 "bad" rfl rfl⟩

/-- The at-most-one-ballot-per-(user, session) invariant over the ballot
collection, the property the compound unique index on
(userId, votingSessionId) enforces. -/
def atMostOneBallotPerUserSession (votes : List Vote) : Prop :=
  ∀ u s, (votes.filter (fun v => v.userId == u && v.votingSessionId == some s)).length ≤ 1

/-- C2: the model-level session cast upholds at most one ballot per
(user, session) pair. When no ballot exists for the pair the cast succeeds;
any successful cast preserves the invariant, leaves exactly one ballot for the
pair, and makes every subsequent cast for the same pair fail with the Conflict
error "User has already voted in this voting session" (which creates no second
ballot - the error path returns no new state and the controller maps it
to 409). -/
theorem castVoteInSession_one_ballot_per_pair (db : VoteDB) (u : UserId) (s : SessionId)
    (cd cd2 : CandidateData) (now now2 : Int)
    (hinv : atMostOneBallotPerUserSession db.votes) :
    (db.votes.find? (fun v => v.userId == u && v.votingSessionId == some s) = none →
       ∃ v db2, Vote.castVoteInSession db u s cd now = .ok (v, db2)) ∧
    (∀ v db2, Vote.castVoteInSession db u s cd now = .ok (v, db2) →
       atMostOneBallotPerUserSession db2.votes ∧
       (db2.votes.filter (fun w => w.userId == u && w.votingSessionId == some s)).length = 1 ∧
       Vote.castVoteInSession db2 u s cd2 now2
         = .error "User has already voted in this voting session") := by
  constructor
  · intro hfind
    unfold Vote.castVoteInSession
    rw [hfind]
    exact ⟨_, _, rfl⟩
  · intro v db2 h
    cases hfind : db.votes.find? (fun w => w.userId == u && w.votingSessionId == some s) with
    | some w => simp [Vote.castVoteInSession, hfind] at h
    | none =>
      simp only [Vote.castVoteInSession, hfind] at h
      rw [Except.ok.injEq, Prod.mk.injEq] at h
      obtain ⟨hv, hdb2⟩ := h
      subst hv
      subst hdb2
      have hnil : db.votes.filter (fun w => w.userId == u && w.votingSessionId == some s) = [] := by
        refine List.filter_eq_nil_iff.mpr ?_
        intro a ha
        exact (List.find?_eq_none.mp hfind) a ha
      refine ⟨?_, ?_, ?_⟩
      · intro u2 s2
        simp only [List.filter_append, List.length_append, List.filter_cons, List.filter_nil]
        split_ifs with hc
        · simp only [Bool.and_eq_true, beq_iff_eq, Option.some.injEq] at hc
          obtain ⟨hu, hs⟩ := hc
          subst hu
          subst hs
          simp [hnil]
        · simpa using hinv u2 s2
      · simp [List.filter_append, hnil, List.filter_cons]
      · simp [Vote.castVoteInSession, List.find?_append, hfind, List.find?_cons]

/-- Witness for the C2 theorem: on the empty collection (which trivially
satisfies the invariant) the cast of user 2 in session 7 succeeds. -/
theorem castVoteInSession_one_ballot_per_pair_witness :
    ∃ v db2, Vote.castVoteInSession emptyVoteDB 2 7
      { candidateId := none, candidateName := "Alice", isCustomCandidate := false } 0
      = .ok (v, db2) :=
  (castVoteInSession_one_ballot_per_pair emptyVoteDB 2 7
      { candidateId := none, candidateName := "Alice", isCustomCandidate := false }
      { candidateId := none, candidateName := "Bob", isCustomCandidate := false } 0 1
      (fun u s => by simp [emptyVoteDB])).1 rfl

/-- C7: at the failing input - the authenticated user 2 posting the non-empty
candidate name "John Doe" on the legacy global path against the empty ballot
collection - the cast returns 500 "Server error during vote casting" and
creates no ballot. The legacy save omits `votingSessionId`, which the schema
declares required (the claim's own cited lines), so Mongoose validation
rejects every legacy insert and the validation error is caught as a server
error, never as the Conflict. The claim - together with the spec's legacy
contract, the model's backward-compatibility comments, and the repository
tests that cast via POST /api/votes and expect the ballot to be counted -
says the first cast succeeds and durably creates the ballot. -/
theorem castVote_legacy_first_cast_500 :
    voteController.castVote emptyVoteDB aliceUser (some "John Doe") 0
      = (.err 500 "Server error during vote casting", emptyVoteDB) ∧
    (voteController.castVote emptyVoteDB aliceUser (some "John Doe") 0).snd.votes = [] :=
  ⟨rfl, rfl⟩

/-- C9: the session cast performs no membership check of the candidate name
against the session's candidate list when `isCustomCandidate` is false and no
`candidateId` is supplied: under the remaining preconditions (session found,
caller assigned, active, inside the window, no prior ballot) the cast succeeds
and records a non-custom ballot with the trimmed name - even when the session
forbids new candidates (`allowNewCandidates = false`) and the name matches no
candidate of the session. -/
theorem castVoteInSession_accepts_unknown_noncustom_name
    (sessions : List VotingSession) (db : VoteDB) (reqUser : User) (now : Int)
    (sid : SessionId) (sess : VotingSession) (nm : String)
    (hfind : VotingSession.findById sessions sid = some sess)
    (hassigned : VotingSession.isUserAssignedToSession sessions sid reqUser.id = true)
    (hactive : sess.status = .active)
    (hstart : ∀ s0 ∈ sess.startDate, s0 ≤ now)
    (hend : ∀ e ∈ sess.endDate, now ≤ e)
    (hnm : jsTrim nm ≠ "")
    (hnovote : db.votes.find?
      (fun v => v.userId == reqUser.id && v.votingSessionId == some sid) = none)
    (hnoallow : sess.allowNewCandidates = false)
    (hnotin : ∀ c ∈ sess.candidates, c.name ≠ jsTrim nm) :
    voteController.castVoteInSession sessions db reqUser
      { votingSessionId := some sid, candidateName := some nm, candidateId := none,
        isCustomCandidate := false } now
      = (.ok 201 ({ id := db.nextId, userId := reqUser.id, votingSessionId := some sid,
                    candidateId := none, candidateName := jsTrim (jsTrim nm),
                    timestamp := now, isCustomCandidate := false } : Vote),
         ({ votes := db.votes ++
              [{ id := db.nextId, userId := reqUser.id, votingSessionId := some sid,
                 candidateId := none, candidateName := jsTrim (jsTrim nm),
                 timestamp := now, isCustomCandidate := false }],
            nextId := db.nextId + 1 } : VoteDB)) := by
  have hguard : (jsTrim nm == "") = false := beq_eq_false_iff_ne.mpr hnm
  have hstatusb : (sess.status == SessionStatus.active) = true := beq_iff_eq.mpr hactive
  have hstartb : (match sess.startDate with
      | some s => decide (now < s)
      | none => false) = false := by
    cases hs : sess.startDate with
    | none => rfl
    | some s0 =>
      have hle : s0 ≤ now := hstart s0 (Option.mem_def.mpr hs)
      exact decide_eq_false (not_lt.mpr hle)
  have hendb : (match sess.endDate with
      | some e => decide (now > e)
      | none => false) = false := by
    cases he : sess.endDate with
    | none => rfl
    | some e0 =>
      have hle : now ≤ e0 := hend e0 (Option.mem_def.mpr he)
      exact decide_eq_false (not_lt.mpr hle)
  unfold voteController.castVoteInSession Vote.castVoteInSession
  simp [hguard, hfind, hassigned, hstatusb, hstartb, hendb, hnovote]

/-- Witness for the C9 theorem: assigned user 2 casts the name "Y" - unknown
to the session, whose only candidate is "X" and which forbids new candidates -
as a non-custom ballot, and it is accepted. -/
theorem castVoteInSession_accepts_unknown_noncustom_name_witness :
    voteController.castVoteInSession [lockedSession] emptyVoteDB aliceUser
      { votingSessionId := some 9, candidateName := some "Y", candidateId := none,
        isCustomCandidate := false } 0
      = (.ok 201 ({ id := 1, userId := 2, votingSessionId := some 9,
                    candidateId := none, candidateName := jsTrim (jsTrim "Y"),
                    timestamp := 0, isCustomCandidate := false } : Vote),
         ({ votes := [{ id := 1, userId := 2, votingSessionId := some 9,
                        candidateId := none, candidateName := jsTrim (jsTrim "Y"),
                        timestamp := 0, isCustomCandidate := false }],
            nextId := 2 } : VoteDB)) :=
  castVoteInSession_accepts_unknown_noncustom_name [lockedSession] emptyVoteDB aliceUser 0
    9 lockedSession "Y" rfl (by decide) rfl
    (fun s0 hs => by simp [lockedSession] at hs)
    (fun e0 he => by simp [lockedSession] at he)
    (by decide) rfl rfl
    (fun c hc => by
      simp [lockedSession] at hc
      subst hc
      decide)

/-- C10: `getVotingSessionById` answers any authenticated caller identically -
the handler never reads the request's user - and on an existing session it
returns 200 with the full aggregated results and the individual ballots, each
view exposing the voter's identity in its `user` field; by contrast the
dedicated results handler rejects a non-admin caller who is not assigned to
the session with 403. -/
theorem getVotingSessionById_skips_access_check (sessions : List VotingSession)
    (db : VoteDB) (sid : SessionId) (sess : VotingSession) (u w : User)
    (hfind : VotingSession.findById sessions sid = some sess) :
    (votingSessionController.getVotingSessionById sessions db u sid
       = votingSessionController.getVotingSessionById sessions db w sid) ∧
    (∃ d, votingSessionController.getVotingSessionById sessions db u sid = .ok 200 d ∧
       d.votingSession = sess ∧
       d.results = Vote.getSessionResults db.votes sid ∧
       d.votes = (Vote.getSessionVotes db.votes sid).map (fun v =>
         { id := v.id, candidateName := v.candidateName, user := v.userId,
           timestamp := v.timestamp, isCustomCandidate := v.isCustomCandidate }) ∧
       ∀ view ∈ d.votes, ∃ v ∈ Vote.getSessionVotes db.votes sid, view.user = v.userId) ∧
    (u.role ≠ .admin → VotingSession.isUserAssignedToSession sessions sid u.id = false →
       voteController.getSessionResults sessions db u sid
         = .err 403 "You are not assigned to this voting session") := by
  refine ⟨rfl, ?_, ?_⟩
  · refine ⟨{ votingSession := sess,
              results := Vote.getSessionResults db.votes sid,
              votes := (Vote.getSessionVotes db.votes sid).map (fun v =>
                { id := v.id, candidateName := v.candidateName, user := v.userId,
                  timestamp := v.timestamp, isCustomCandidate := v.isCustomCandidate }) },
            ?_, rfl, rfl, rfl, ?_⟩
    · unfold votingSessionController.getVotingSessionById
      rw [hfind]
    · intro view hview
      rw [List.mem_map] at hview
      obtain ⟨v, hv, hview⟩ := hview
      exact ⟨v, hv, by rw [← hview]⟩
  · intro hrole hassigned
    have hb : (u.role != Role.admin) = true := bne_iff_ne.mpr hrole
    unfold voteController.getSessionResults
    rw [hfind]
    simp [hb, hassigned]

/-- Witness for the C10 theorem at a concrete state: the unassigned regular
user 3 reads session 7 in full through get-by-id, yet the results endpoint
turns the same caller away with 403. -/
theorem getVotingSessionById_skips_access_check_witness :
    (∃ d, votingSessionController.getVotingSessionById [boardSession]
        { votes := exampleVotes, nextId := 4 } bobUser 7 = .ok 200 d ∧
       d.votingSession = boardSession ∧
       d.results = Vote.getSessionResults exampleVotes 7 ∧
       d.votes = (Vote.getSessionVotes exampleVotes 7).map (fun v =>
         { id := v.id, candidateName := v.candidateName, user := v.userId,
           timestamp := v.timestamp, isCustomCandidate := v.isCustomCandidate }) ∧
       ∀ view ∈ d.votes, ∃ v ∈ Vote.getSessionVotes exampleVotes 7, view.user = v.userId) ∧
    voteController.getSessionResults [boardSession] { votes := exampleVotes, nextId := 4 }
        bobUser 7 = .err 403 "You are not assigned to this voting session" :=
  ⟨(getVotingSessionById_skips_access_check [boardSession]
      { votes := exampleVotes, nextId := 4 } 7 boardSession bobUser bobUser rfl).2.1,
   (getVotingSessionById_skips_access_check [boardSession]
      { votes := exampleVotes, nextId := 4 } 7 boardSession bobUser bobUser rfl).2.2
      (by decide) rfl⟩

/-- A successful session-scoped cast presupposes that both time-window guards
were passed: any start bound satisfies start ≤ now and any end bound satisfies
now ≤ end (the end check in the source is `now > endDate`, so the end itself
passes). -/
theorem castVoteInSession_ok_time_bounds (sessions : List VotingSession) (db : VoteDB)
    (reqUser : User) (req : CastRequest) (now : Int) (sid : SessionId)
    (sess : VotingSession) (st : Nat) (v : Vote)
    (hsid : req.votingSessionId = some sid)
    (hfind : VotingSession.findById sessions sid = some sess)
    (h : (voteController.castVoteInSession sessions db reqUser req now).fst = .ok st v) :
    (∀ s0 ∈ sess.startDate, s0 ≤ now) ∧ (∀ e ∈ sess.endDate, now ≤ e) := by
  unfold voteController.castVoteInSession at h
  simp only [hsid] at h
  split at h
  · simp at h
  next nm hnm =>
    split at h
    · simp at h
    next htrim =>
      simp only [hfind] at h
      split at h
      · simp at h
      next hassigned =>
        split at h
        · simp at h
        next hstatus =>
          split at h
          · simp at h
          next hstart =>
            split at h
            · simp at h
            next hend =>
              constructor
              · intro s0 hs0
                rw [Option.mem_def] at hs0
                rw [hs0] at hstart
                simp only [decide_eq_true_eq] at hstart
                exact not_lt.mp hstart
              · intro e0 he0
                rw [Option.mem_def] at he0
                rw [he0] at hend
                simp only [decide_eq_true_eq] at hend
                exact not_lt.mp hend

/-- The session cast fails with "Voting session has ended" only when the
session has an end bound strictly below the current time. -/
theorem castVoteInSession_ended_error_past_end (sessions : List VotingSession)
    (db : VoteDB) (reqUser : User) (req : CastRequest) (now : Int) (sid : SessionId)
    (sess : VotingSession)
    (hsid : req.votingSessionId = some sid)
    (hfind : VotingSession.findById sessions sid = some sess)
    (h : (voteController.castVoteInSession sessions db reqUser req now).fst
      = .err 400 "Voting session has ended") :
    ∃ e, sess.endDate = some e ∧ e < now := by
  unfold voteController.castVoteInSession at h
  simp only [hsid] at h
  split at h
  · simp at h
  next nm hnm =>
    split at h
    · simp at h
    next htrim =>
      simp only [hfind] at h
      split at h
      · simp at h
      next hassigned =>
        split at h
        · simp at h
        next hstatus =>
          split at h
          · simp at h
          next hstart =>
            split at h
            next hend =>
              cases he : sess.endDate with
              | none => rw [he] at hend; simp at hend
              | some e0 =>
                rw [he] at hend
                simp only [decide_eq_true_eq] at hend
                exact ⟨e0, rfl, hend⟩
            next hend =>
              split at h
              · simp at h
              next hcustom =>
                split at h
                · simp at h
                next hcand =>
                  split at h
                  next msg hmsg =>
                    split at h
                    · simp at h
                    · simp at h
                  next vote db2 hok => simp at h

/-- C3 (amended): in the session variant the time-window end is inclusive: a
successful cast satisfies start ≤ now and now ≤ end for the bounds present,
the "Voting session has ended" failure implies end < now, and a fully valid
cast at now equal to the end succeeds (see the counterexample) - the session's
end timestamp itself is votable. The poll variant's time gate is unreachable:
voteController.js never binds `Poll`, so every poll-scoped cast that passes
the candidate-name check fails 500 "Server error casting vote" regardless of
the current time and of the stored polls; no poll cast ever returns 201 or
the poll InvalidState message "Poll is not currently active". -/
theorem timeWindow_session_inclusive_poll_gate_unreachable
    (sessions : List VotingSession) (db : VoteDB) (reqUser : User) (req : CastRequest)
    (now : Int) (polls : List Poll) (pdb : PollVoteDB) (preq : PollCastRequest)
    (pollId : PollId) (pnow : Int) :
    (∀ sid sess st v, req.votingSessionId = some sid →
       VotingSession.findById sessions sid = some sess →
       (voteController.castVoteInSession sessions db reqUser req now).fst = .ok st v →
       (∀ s0 ∈ sess.startDate, s0 ≤ now) ∧ (∀ e ∈ sess.endDate, now ≤ e)) ∧
    (∀ sid sess, req.votingSessionId = some sid →
       VotingSession.findById sessions sid = some sess →
       (voteController.castVoteInSession sessions db reqUser req now).fst
         = .err 400 "Voting session has ended" →
       ∃ e, sess.endDate = some e ∧ e < now) ∧
    (∀ nm, preq.candidateName = some nm → jsTrim nm ≠ "" →
       voteController.castVoteInPoll polls pdb reqUser pollId preq pnow
         = (.err 500 "Server error casting vote", pdb)) ∧
    ((voteController.castVoteInPoll polls pdb reqUser pollId preq pnow).fst.status ≠ 201) ∧
    ((voteController.castVoteInPoll polls pdb reqUser pollId preq pnow).fst
       ≠ .err 400 "Poll is not currently active") := by
  refine ⟨?_, ?_, ?_, ?_, ?_⟩
  · intro sid sess st v hsid hfind h
    exact castVoteInSession_ok_time_bounds sessions db reqUser req now sid sess st v
      hsid hfind h
  · intro sid sess hsid hfind h
    exact castVoteInSession_ended_error_past_end sessions db reqUser req now sid sess
      hsid hfind h
  · intro nm hpnm htrim
    have hguard : (jsTrim nm == "") = false := beq_eq_false_iff_ne.mpr htrim
    unfold voteController.castVoteInPoll
    simp [hpnm, hguard]
  · unfold voteController.castVoteInPoll
    split
    · simp [Response.status]
    · split
      · simp [Response.status]
      · simp [Response.status]
  · unfold voteController.castVoteInPoll
    split
    · simp
    · split
      · simp
      · simp

/-- Witness for the C3 theorem at concrete inputs: against a poll store that
holds the active poll with window [0, 100], the assigned user 2 casting the
valid name "Alice" at time 50 - strictly inside the window - still receives
the 500, because the poll handler crashes before reading any poll. -/
theorem timeWindow_session_inclusive_poll_gate_unreachable_witness :
    voteController.castVoteInPoll [boardPoll] ({ votes := [], nextId := 1 } : PollVoteDB)
      aliceUser 4
      { candidateName := some "Alice", candidateId := none,
        isCustomCandidate := false } 50
      = (.err 500 "Server error casting vote", ({ votes := [], nextId := 1 } : PollVoteDB)) :=
  (timeWindow_session_inclusive_poll_gate_unreachable [] emptyVoteDB aliceUser
      { votingSessionId := none, candidateName := none, candidateId := none,
        isCustomCandidate := false } 0 [boardPoll]
      ({ votes := [], nextId := 1 } : PollVoteDB)
      { candidateName := some "Alice", candidateId := none, isCustomCandidate := false }
      4 50).2.2.1 "Alice" rfl (by decide)

/-- C5: for every ballot collection and session, the aggregation read returns
one entry per distinct candidate name that received at least one of the
session's ballots - no duplicate entries, and a name has an entry exactly when
some session ballot carries it - each entry holding that name's ballot count
and custom-candidate count; the entries are ordered by vote count descending
(ties in unspecified order); it also returns the total ballot count, the
number of distinct names, and the distinct names sorted. On the concrete
ballots {A:2, B:1} of session 7 it returns total 3, two distinct candidates,
and A's entry of count 2 ahead of B's of count 1. -/
theorem getSessionResults_aggregation (votes : List Vote) (sid : SessionId) :
    (Vote.getSessionResults votes sid).totalVotes = (sessionVotes votes sid).length ∧
    (Vote.getSessionResults votes sid).totalCandidates
      = ((sessionVotes votes sid).map (fun v => v.candidateName)).dedup.length ∧
    (Vote.getSessionResults votes sid).results.length
      = (Vote.getSessionResults votes sid).totalCandidates ∧
    List.Sorted byVoteCountDesc (Vote.getSessionResults votes sid).results ∧
    ((Vote.getSessionResults votes sid).results.map (fun e => e.candidateName)).Nodup ∧
    (∀ name, (∃ e ∈ (Vote.getSessionResults votes sid).results, e.candidateName = name)
       ↔ name ∈ (sessionVotes votes sid).map (fun v => v.candidateName)) ∧
    (∀ e ∈ (Vote.getSessionResults votes sid).results,
       e.voteCount = ((sessionVotes votes sid).filter
         (fun v => v.candidateName == e.candidateName)).length ∧
       e.customCandidateCount = ((sessionVotes votes sid).filter
         (fun v => v.candidateName == e.candidateName && v.isCustomCandidate)).length) ∧
    List.Sorted jsStrLe (Vote.getSessionResults votes sid).candidates ∧
    (Vote.getSessionResults votes sid).candidates.Perm
      ((sessionVotes votes sid).map (fun v => v.candidateName)).dedup ∧
    Vote.getSessionResults exampleVotes 7
      = { results := [{ candidateName := "A", voteCount := 2, customCandidateCount := 0 },
                      { candidateName := "B", voteCount := 1, customCandidateCount := 0 }],
          totalVotes := 3, totalCandidates := 2, candidates := ["A", "B"] } := by
  have hperm : (Vote.getSessionResults votes sid).results.Perm
      ((((sessionVotes votes sid).map (fun v => v.candidateName)).dedup).map
        (resultEntryFor (sessionVotes votes sid))) :=
    List.perm_insertionSort byVoteCountDesc _
  have hmapnames :
      ((((sessionVotes votes sid).map (fun v => v.candidateName)).dedup).map
        (resultEntryFor (sessionVotes votes sid))).map (fun e => e.candidateName)
      = ((sessionVotes votes sid).map (fun v => v.candidateName)).dedup := by
    rw [List.map_map]
    exact List.map_id' _
  refine ⟨rfl, rfl, ?_, ?_, ?_, ?_, ?_, ?_, ?_, ?_⟩
  · rw [hperm.length_eq, List.length_map]
    rfl
  · exact List.sorted_insertionSort byVoteCountDesc _
  · have hfinal : ((Vote.getSessionResults votes sid).results.map
        (fun e => e.candidateName)).Perm
        ((sessionVotes votes sid).map (fun v => v.candidateName)).dedup := by
      rw [← hmapnames]
      exact hperm.map (fun e => e.candidateName)
    exact (List.nodup_dedup _).perm hfinal.symm
  · intro name
    constructor
    · rintro ⟨e, he, rfl⟩
      have he2 := hperm.mem_iff.mp he
      rw [List.mem_map] at he2
      obtain ⟨n, hn, rfl⟩ := he2
      exact List.mem_dedup.mp hn
    · intro hname
      refine ⟨resultEntryFor (sessionVotes votes sid) name, ?_, rfl⟩
      refine hperm.mem_iff.mpr ?_
      rw [List.mem_map]
      exact ⟨name, List.mem_dedup.mpr hname, rfl⟩
  · intro e he
    have he2 := hperm.mem_iff.mp he
    rw [List.mem_map] at he2
    obtain ⟨n, hn, rfl⟩ := he2
    exact ⟨rfl, rfl⟩
  · exact List.sorted_insertionSort jsStrLe _
  · exact List.perm_insertionSort jsStrLe _
  · rfl

/-- Witness for the C5 theorem: the A-entry of the {A:2, B:1} example is among
the results and its vote count equals the number of A-ballots in session 7. -/
theorem getSessionResults_aggregation_witness :
    ({ candidateName := "A", voteCount := 2, customCandidateCount := 0 } : ResultEntry)
        ∈ (Vote.getSessionResults exampleVotes 7).results ∧
    (2 : Nat) = ((sessionVotes exampleVotes 7).filter
      (fun v => v.candidateName == "A")).length :=
  ⟨by decide,
   ((getSessionResults_aggregation exampleVotes 7).2.2.2.2.2.2.1
      { candidateName := "A", voteCount := 2, customCandidateCount := 0 }
      (by decide)).1⟩

end VoteApp
